import Mathlib

/-
Shallow embedding of the good-blocks disk-health scanner core
(src/time_categories.c, src/retest.c, src/scanner.c, src/scan_options.c,
src/device_info/device_info.c), together with theorems checking the
specification's claims against it.

Conventions of the embedding:
- C `int` / `unsigned long` quantities that are provably non-negative on the
  paths modelled (latencies from monotonic clocks, validated configuration
  values, sector counts) are modelled as `Nat`; values that can be `-1`
  sentinels (return codes) are `Int`.
- C `double` arithmetic (sample ratio, percentages, stride computation) is
  modelled by exact rational arithmetic `ℚ`; the C cast `(unsigned long)x`
  of a non-negative value is `(Int.floor x).toNat` (truncation toward zero).
- Device I/O is an oracle: each attempted read is a `ReadResult` supplied by
  a function parameter, so the loop structure of the C code is kept exactly
  while the kernel is abstracted.
-/

namespace GoodBlocks

/-- The eight latency categories of `TimeCategoryType` (time_categories.h),
in the C enum order. -/
inductive TimeCategoryType where
  | excellent
  | good
  | normal
  | general
  | poor
  | severe
  | suspect
  | damaged
deriving DecidableEq, Repr

/-- Numeric value of the C enum constant for a category. -/
def TimeCategoryType.rank : TimeCategoryType → Nat
  | .excellent => 0
  | .good => 1
  | .normal => 2
  | .general => 3
  | .poor => 4
  | .severe => 5
  | .suspect => 6
  | .damaged => 7

/-- Device classes of the C enum `DeviceType` (device_info.h). -/
inductive DeviceType where
  | unknown
  | hdd
  | sata_ssd
  | nvme_ssd
  | usb_storage
  | unknown_ssd
deriving DecidableEq, Repr

/-- Bus types of the C enum `BusType` (device_info.h). -/
inductive BusType where
  | unknown
  | sata
  | pata
  | scsi
  | usb
  | nvme
  | mmc
  | virtio
  | ata
deriving DecidableEq, Repr

/-- The `TimeCategories` struct of time_categories.h: thresholds plus the
running statistics mutated by `categorize_time`.  The C `counts[8]` array is
a function from the category enum. -/
structure TimeCategories where
  excellent_max : Nat
  good_max : Nat
  normal_max : Nat
  general_max : Nat
  poor_max : Nat
  severe_max : Nat
  suspect_threshold : Nat
  counts : TimeCategoryType → Nat
  total_reads : Nat
  total_time_ms : Nat
  min_time_ms : Nat
  max_time_ms : Nat

/-- `counts[category]++` on the modelled counter array. -/
def bumpCount (f : TimeCategoryType → Nat) (cat : TimeCategoryType) :
    TimeCategoryType → Nat :=
  fun x => if x = cat then f x + 1 else f x

/-- Sum of the eight per-category counters. -/
def countsSumF (f : TimeCategoryType → Nat) : Nat :=
  f .excellent + f .good + f .normal + f .general + f .poor + f .severe
    + f .suspect + f .damaged

/-- The pure category computation inside `categorize_time`
(time_categories.c, lines 288-314): the suspect test first, then the
six-bucket walk, with the final `else` falling back to Severe. -/
def categorizeValue (c : TimeCategories) (time_ms : Nat) : TimeCategoryType :=
  if c.suspect_threshold ≤ time_ms then .suspect
  else if time_ms ≤ c.excellent_max then .excellent
  else if time_ms ≤ c.good_max then .good
  else if time_ms ≤ c.normal_max then .normal
  else if time_ms ≤ c.general_max then .general
  else if time_ms ≤ c.poor_max then .poor
  else if time_ms ≤ c.severe_max then .severe
  else .severe

/-- `categorize_time` (time_categories.c, lines 288-335): classify, then
update counter, totals and min/max; returns the category and the updated
struct. -/
def categorize_time (c : TimeCategories) (time_ms : Nat) :
    TimeCategoryType × TimeCategories :=
  let category := categorizeValue c time_ms
  let c1 : TimeCategories :=
    { c with
      counts := bumpCount c.counts category
      total_reads := c.total_reads + 1
      total_time_ms := c.total_time_ms + time_ms }
  let c2 : TimeCategories :=
    if c1.total_reads = 1 then
      { c1 with min_time_ms := time_ms, max_time_ms := time_ms }
    else
      let c1a : TimeCategories :=
        if time_ms < c1.min_time_ms then { c1 with min_time_ms := time_ms } else c1
      if c1a.max_time_ms < time_ms then { c1a with max_time_ms := time_ms } else c1a
  (category, c2)

/-- `categorize_time_without_stats` (time_categories.c, lines 577-598):
the plain six-bucket walk with no suspect test and no statistics update. -/
def categorize_time_without_stats (c : TimeCategories) (time_ms : Nat) :
    TimeCategoryType :=
  if time_ms ≤ c.excellent_max then .excellent
  else if time_ms ≤ c.good_max then .good
  else if time_ms ≤ c.normal_max then .normal
  else if time_ms ≤ c.general_max then .general
  else if time_ms ≤ c.poor_max then .poor
  else if time_ms ≤ c.severe_max then .severe
  else .severe

/-- `validate_time_categories` (time_categories.c, lines 525-556), as the
boolean "returns 0". -/
def validate_time_categories (c : TimeCategories) : Bool :=
  if c.good_max ≤ c.excellent_max ∨ c.normal_max ≤ c.good_max
      ∨ c.general_max ≤ c.normal_max ∨ c.poor_max ≤ c.general_max
      ∨ c.severe_max ≤ c.poor_max then false
  else if c.suspect_threshold < c.normal_max then false
  else if c.excellent_max = 0 ∨ 30000 < c.suspect_threshold then false
  else true

/-- `set_default_categories` + `initialize_time_categories`
(time_categories.c, lines 31-119): per-class default thresholds and zeroed
statistics. -/
def init_time_categories (device_type : DeviceType) : TimeCategories :=
  let base : TimeCategories :=
    { excellent_max := 5, good_max := 15, normal_max := 35, general_max := 80
      poor_max := 200, severe_max := 800, suspect_threshold := 35
      counts := fun _ => 0, total_reads := 0, total_time_ms := 0
      min_time_ms := 0, max_time_ms := 0 }
  match device_type with
  | .nvme_ssd =>
      { base with excellent_max := 1, good_max := 3, normal_max := 8
                  general_max := 20, poor_max := 50, severe_max := 200
                  suspect_threshold := 8 }
  | .sata_ssd | .unknown_ssd =>
      { base with excellent_max := 2, good_max := 8, normal_max := 20
                  general_max := 50, poor_max := 150, severe_max := 500
                  suspect_threshold := 20 }
  | .hdd =>
      { base with excellent_max := 8, good_max := 20, normal_max := 40
                  general_max := 80, poor_max := 200, severe_max := 1000
                  suspect_threshold := 40 }
  | .usb_storage =>
      { base with excellent_max := 5, good_max := 15, normal_max := 40
                  general_max := 100, poor_max := 300, severe_max := 1500
                  suspect_threshold := 40 }
  | .unknown => base

/-- Outcome of one attempted device read: a measured latency in
milliseconds, or an I/O error / short read. -/
inductive ReadResult where
  | ok (time_ms : Nat)
  | ioError
deriving DecidableEq, Repr

/-- The `RetestConfig` struct (retest.h). -/
structure RetestConfig where
  max_retests : Nat
  retest_interval_ms : Nat
  silent_mode : Bool
deriving DecidableEq, Repr

/-- `init_retest_config` (retest.c, lines 21-27): default 3 retests,
100 ms interval, silent. -/
def init_retest_config : RetestConfig :=
  { max_retests := 3, retest_interval_ms := 100, silent_mode := true }

/-- `set_retest_config` (retest.c, lines 36-46): each field is taken only
when inside its accepted range, otherwise the current value is kept. -/
def set_retest_config (c : RetestConfig) (max_retests interval_ms : Int) :
    RetestConfig :=
  let c1 : RetestConfig :=
    if 0 < max_retests ∧ max_retests ≤ 10 then
      { c with max_retests := max_retests.toNat }
    else c
  if 0 ≤ interval_ms ∧ interval_ms ≤ 5000 then
    { c1 with retest_interval_ms := interval_ms.toNat }
  else c1

/-- `set_retest_silent_mode` (retest.c, lines 54-57). -/
def set_retest_silent_mode (c : RetestConfig) (silent : Bool) : RetestConfig :=
  { c with silent_mode := silent }

/-- The `RetestResult` struct (time_categories.h): the recorded attempt
latencies (`retest_times[0..retest_count)` as a list), the computed average
and the final category. -/
structure RetestResult where
  retest_times : List Nat
  average_time : Nat
  final_category : TimeCategoryType
deriving DecidableEq, Repr

/-- `calculate_retest_average` (retest.c, lines 211-239): sort the recorded
times, drop the first (one minimum) and the last (one maximum), and take
the integer mean of the middle. -/
def calculate_retest_average (times : List Nat) : Nat :=
  if times.length < 3 then 0
  else
    let sorted := times.insertionSort (· ≤ ·)
    let middle := (sorted.drop 1).dropLast
    if 0 < middle.length then middle.sum / middle.length else sorted.headD 0

/-- The retest loop of `perform_sector_retest` (retest.c, lines 97-141):
iterate the attempt index over `[0, max_retests)` while fewer than 5
latencies are recorded; an I/O error stops the loop with `false`. -/
def retestLoop (attemptRead : Nat → ReadResult) :
    List Nat → List Nat → List Nat × Bool
  | [], acc => (acc, true)
  | i :: rest, acc =>
      if acc.length < 5 then
        match attemptRead i with
        | .ok t => retestLoop attemptRead rest (acc ++ [t])
        | .ioError => (acc, false)
      else (acc, true)

/-- `perform_sector_retest` (retest.c, lines 68-168), with the device reads
abstracted into the `attemptRead` oracle (attempt index to outcome).  On an
I/O error the result keeps the initialized Damaged category and zero
average; otherwise the average is the trimmed mean for 3 or more recorded
attempts, the simple integer mean for 1 or 2, and the final category is
Normal as soon as at least one attempt succeeded. -/
def perform_sector_retest (config : RetestConfig)
    (attemptRead : Nat → ReadResult) : RetestResult :=
  let lp := retestLoop attemptRead (List.range config.max_retests) []
  let times := lp.1
  if lp.2 then
    let avg :=
      if 3 ≤ times.length then calculate_retest_average times
      else if 0 < times.length then times.sum / times.length
      else 0
    { retest_times := times, average_time := avg
      final_category := if 0 < times.length then .normal else .damaged }
  else
    { retest_times := times, average_time := 0, final_category := .damaged }

/-- `process_retest_result` (retest.c, lines 177-203): a damaged retest
bumps the Damaged counter; otherwise the average is re-classified through
the six buckets, promoted to Damaged only when it is at least the suspect
threshold and exceeds twice `severe_max`. -/
def process_retest_result (c : TimeCategories) (result : RetestResult) :
    TimeCategoryType × TimeCategories :=
  if result.final_category = .damaged then
    (.damaged, { c with counts := bumpCount c.counts .damaged })
  else
    let new_category0 := categorize_time_without_stats c result.average_time
    let new_category :=
      if c.suspect_threshold ≤ result.average_time then
        if c.severe_max * 2 < result.average_time then .damaged
        else new_category0
      else new_category0
    (new_category, { c with counts := bumpCount c.counts new_category })

/-- Per-iteration oracle for the scan loop: the sector's own timed read,
whether the retest could open and seek the device, and the retest attempts'
outcomes. -/
structure SectorOutcome where
  readResult : ReadResult
  retestSetupOk : Bool
  retestReads : Nat → ReadResult

/-- `handle_suspect_block` (scanner.c, lines 446-491): build the retest
configuration from the scan options, run the retest, and return the average
time on a passed retest or -1 when there is no retest, the retest could not
run, or it confirmed damage. -/
def handle_suspect_block (opts_retries opts_interval : Int) (setupOk : Bool)
    (attemptRead : Nat → ReadResult) : Int :=
  if opts_retries ≤ 0 then -1
  else if setupOk = false then -1
  else
    let cfg := set_retest_silent_mode
      (set_retest_config init_retest_config opts_retries opts_interval) true
    let result := perform_sector_retest cfg attemptRead
    if result.final_category = .damaged then -1
    else (result.average_time : Int)

/-- The wait computed by scanner.c, lines 751-754: `usleep(read_time *
wait_factor * 1000)` guarded by `wait_factor > 0 && read_time > 0`, in
microseconds. -/
def wait_sleep_usec (wait_factor : Nat) (read_time : Int) : Nat :=
  if 0 < wait_factor ∧ 0 < read_time then read_time.toNat * wait_factor * 1000
  else 0

/-- Result of one iteration of the main scan loop: the category handed to
`update_progress`, the updated statistics, the final value of the
`read_time` variable, and the microseconds slept. -/
structure IterResult where
  category : TimeCategoryType
  state : TimeCategories
  read_time_final : Int
  sleep_usec : Nat

/-- The successful-read part of the loop body (scanner.c, lines 717-734):
classify the latency, and when it reaches the scan-level suspect threshold
run `handle_suspect_block`; a non-negative retest average replaces
`read_time` and is classified again. -/
def scanIterateOk (scan_suspect_threshold : Nat) (opts_retries opts_interval : Int)
    (c : TimeCategories) (o : SectorOutcome) (read_time : Nat) :
    TimeCategoryType × TimeCategories × Nat :=
  let p := categorize_time c read_time
  if scan_suspect_threshold ≤ read_time then
    let retest_time :=
      handle_suspect_block opts_retries opts_interval o.retestSetupOk o.retestReads
    if 0 ≤ retest_time then
      let p2 := categorize_time p.2 retest_time.toNat
      (p2.1, p2.2, retest_time.toNat)
    else (p.1, p.2, read_time)
  else (p.1, p.2, read_time)

/-- One iteration of the main scan loop (scanner.c, lines 711-754), minus
logging and display.  A failed read keeps category Damaged for the sample
but feeds the 30000 ms sentinel through `categorize_time`. -/
def scanIterate (scan_suspect_threshold : Nat) (opts_retries opts_interval : Int)
    (wait_factor : Nat) (c : TimeCategories) (o : SectorOutcome) : IterResult :=
  match o.readResult with
  | .ok read_time =>
      let q := scanIterateOk scan_suspect_threshold opts_retries opts_interval
        c o read_time
      { category := q.1, state := q.2.1, read_time_final := (q.2.2 : Int)
        sleep_usec := wait_sleep_usec wait_factor (q.2.2 : Int) }
  | .ioError =>
      let p := categorize_time c 30000
      { category := .damaged, state := p.2, read_time_final := -1
        sleep_usec := wait_sleep_usec wait_factor (-1) }

/-- The main scan loop folded over the scheduled samples' outcomes. -/
def scanLoop (scan_suspect_threshold : Nat) (opts_retries opts_interval : Int)
    (wait_factor : Nat) (c : TimeCategories) : List SectorOutcome → TimeCategories
  | [] => c
  | o :: os =>
      scanLoop scan_suspect_threshold opts_retries opts_interval wait_factor
        (scanIterate scan_suspect_threshold opts_retries opts_interval
          wait_factor c o).state os

/-- The device-class fields of the `DeviceInfo` struct (device_info.h) that
`get_recommended_suspect_threshold` reads; `is_rotational` is the C
convention 0 = SSD, 1 = HDD, -1 = unknown. -/
structure DeviceInfoLite where
  device_type : DeviceType
  bus_type : BusType
  is_rotational : Int
  rotation_rate_rpm : Int
deriving DecidableEq, Repr

/-- `is_ssd_device` (device_info.c, lines 415-423). -/
def is_ssd_device (info : DeviceInfoLite) : Bool :=
  info.device_type = .sata_ssd ∨ info.device_type = .nvme_ssd
    ∨ info.device_type = .unknown_ssd
    ∨ (info.device_type = .usb_storage ∧ info.is_rotational = 0)
    ∨ info.is_rotational = 0

/-- `is_hdd_device` (device_info.c, lines 428-433). -/
def is_hdd_device (info : DeviceInfoLite) : Bool :=
  info.device_type = .hdd ∨ info.is_rotational = 1

/-- `is_nvme_device` (device_info.c, lines 438-443). -/
def is_nvme_device (info : DeviceInfoLite) : Bool :=
  info.device_type = .nvme_ssd ∨ info.bus_type = .nvme

/-- `get_recommended_suspect_threshold` (device_info.c, lines 448-470). -/
def get_recommended_suspect_threshold (info : DeviceInfoLite) : Int :=
  if is_ssd_device info then
    if is_nvme_device info then 10 else 20
  else if is_hdd_device info then
    if 10000 ≤ info.rotation_rate_rpm then 60
    else if 7200 ≤ info.rotation_rate_rpm ∨ info.rotation_rate_rpm = 0 then 100
    else 150
  else if info.device_type = .usb_storage then 200
  else 100

/-- `DEFAULT_SUSPECT_THRESHOLD` (scan_options.h). -/
def DEFAULT_SUSPECT_THRESHOLD : Int := 100

/-- Resolution of the scan-level suspect threshold (scanner.c, lines
594-600): the recommended value is substituted only when the option equals
`DEFAULT_SUSPECT_THRESHOLD`. -/
def resolve_suspect_threshold (opt : Int) (info : DeviceInfoLite) : Int :=
  if opt = DEFAULT_SUSPECT_THRESHOLD then get_recommended_suspect_threshold info
  else opt

/-- Planned sample count (scanner.c, lines 624-639): for a sampling
fraction below 1 it is `(unsigned long)(total * fraction)` raised to at
least 1, otherwise the whole range. -/
def planned_sample_count (total_sectors : Nat) (frac : ℚ) : Nat :=
  if frac < 1 then
    let sample_count := (Int.floor ((total_sectors : ℚ) * frac)).toNat
    if sample_count = 0 then 1 else sample_count
  else total_sectors

/-- The sector index of sample `i` (scanner.c, lines 686-709).  `rnd i`
models `rand() / (double)RAND_MAX` of iteration `i` (a value in [0, 1]).
The C cast `(unsigned long)` of the possibly negative randomized position
is modelled as `Int.toNat` of the floor, and both clamps of the randomized
branch are kept. -/
def sampleSector (start_sector end_sector : Nat) (frac : ℚ) (random : Bool)
    (rnd : Nat → ℚ) (i : Nat) : Nat :=
  let total := end_sector - start_sector
  let count := planned_sample_count total frac
  if frac < 1 then
    let step_size : ℚ := (total : ℚ) / (count : ℚ)
    let base_position : ℚ := (i : ℚ) * step_size
    if random then
      let max_offset := step_size * (4 / 5)
      let random_offset := rnd i * max_offset - max_offset / 2
      let s := start_sector + (Int.floor (base_position + random_offset)).toNat
      let s := if s < start_sector then start_sector else s
      if end_sector ≤ s then end_sector - 1 else s
    else
      start_sector + (Int.floor base_position).toNat
  else
    start_sector + i

/-- The full sequence of sector indices visited by the scan loop when it is
not interrupted: one per planned sample. -/
def sampleSectors (start_sector end_sector : Nat) (frac : ℚ) (random : Bool)
    (rnd : Nat → ℚ) : List Nat :=
  (List.range (planned_sample_count (end_sector - start_sector) frac)).map
    (sampleSector start_sector end_sector frac random rnd)

/-- A positional argument of the CLI: an absolute sector index, or a
percentage (the string contained a percent sign and `strtod` read `p`). -/
inductive PosSpec where
  | sector (n : Nat)
  | percent (p : ℚ)
deriving DecidableEq, Repr

/-- `parse_percentage` (scan_options.c, lines 90-108): accept `p` in
[0, 100] and truncate `p / 100 * total_sectors`; outside that range the C
code exits, modelled as `none`. -/
def parse_percentage (p : ℚ) (total_sectors : Nat) : Option Nat :=
  if 0 ≤ p ∧ p ≤ 100 then
    some (Int.floor (p / 100 * (total_sectors : ℚ))).toNat
  else none

/-- Resolution of one positional argument inside `parse_positions`
(scan_options.c, lines 390-412). -/
def resolvePos (s : PosSpec) (total_sectors : Nat) : Option Nat :=
  match s with
  | .sector n => some n
  | .percent p => parse_percentage p total_sectors

/-- `parse_positions` (scan_options.c, lines 378-445): resolve both
positions and validate `start < total`, `end ≤ total`, `start < end`. -/
def parse_positions (start_spec end_spec : PosSpec) (total_sectors : Nat) :
    Option (Nat × Nat) :=
  if total_sectors = 0 then none
  else
    match resolvePos start_spec total_sectors, resolvePos end_spec total_sectors with
    | some s, some e =>
        if total_sectors ≤ s then none
        else if total_sectors < e then none
        else if e ≤ s then none
        else some (s, e)
    | _, _ => none

/-- Spec-side definition ("walk the six thresholds low-to-high; first
t_ms less-or-equal threshold wins"): the first of the six ordered buckets
whose threshold bounds the latency, if any. -/
def specFirstBucket (c : TimeCategories) (t : Nat) : Option TimeCategoryType :=
  if t ≤ c.excellent_max then some .excellent
  else if t ≤ c.good_max then some .good
  else if t ≤ c.normal_max then some .normal
  else if t ≤ c.general_max then some .general
  else if t ≤ c.poor_max then some .poor
  else if t ≤ c.severe_max then some .severe
  else none

/-- Arithmetic characterization of a passing validation. -/
theorem validate_eq (c : TimeCategories) :
    validate_time_categories c = true ↔
      c.excellent_max < c.good_max ∧ c.good_max < c.normal_max
      ∧ c.normal_max < c.general_max ∧ c.general_max < c.poor_max
      ∧ c.poor_max < c.severe_max ∧ c.normal_max ≤ c.suspect_threshold
      ∧ 0 < c.excellent_max ∧ c.suspect_threshold ≤ 30000 := by
  unfold validate_time_categories
  split_ifs with h1 h2 h3 <;> simp <;> omega

/-- The spec's description of `classify` at one taxonomy and one latency:
Suspect exactly at or above the suspect threshold, otherwise the first
bucket whose threshold bounds the latency. -/
def classifyClaimAt (c : TimeCategories) (t : Nat) : Prop :=
  (categorizeValue c t = .suspect ↔ c.suspect_threshold ≤ t)
  ∧ (t < c.suspect_threshold → specFirstBucket c t = some (categorizeValue c t))

/-- C7 counterexample: the taxonomy with NVMe-like bucket thresholds but
suspect threshold 30000 is valid, yet at latency 300 (below the suspect
threshold, above severe_max) no bucket threshold bounds the latency and
the code still returns a category (Severe), so the claim's description of
the classification does not hold. -/
theorem claim_C7_counterexample :
    validate_time_categories ⟨1, 3, 8, 20, 50, 200, 30000, fun _ => 0, 0, 0, 0, 0⟩ = true
    ∧ (300 : Nat) ≤ 30000
    ∧ ¬ classifyClaimAt ⟨1, 3, 8, 20, 50, 200, 30000, fun _ => 0, 0, 0, 0, 0⟩ 300 := by
  refine ⟨by decide, by decide, ?_⟩
  intro h
  have := h.2 (by decide)
  revert this
  decide

set_option maxHeartbeats 1000000 in
set_option linter.unusedVariables false in
/-- C7 amended: for every valid taxonomy and latency in [0, 30000],
classification returns Suspect exactly when the latency is at least the
suspect threshold; below it, the first bucket whose threshold bounds the
latency wins whenever the latency is at most severe_max, latencies above
severe_max (but below the suspect threshold) fall back to Severe, the
result is one of the six buckets, and it is monotonically non-decreasing
in the latency. -/
theorem claim_C7_amended (c : TimeCategories) (hv : validate_time_categories c = true)
    (t : Nat) (ht : t ≤ 30000) :
    ((categorize_time c t).1 = categorizeValue c t)
    ∧ (categorizeValue c t = .suspect ↔ c.suspect_threshold ≤ t)
    ∧ (t < c.suspect_threshold →
        (t ≤ c.severe_max → specFirstBucket c t = some (categorizeValue c t))
        ∧ (c.severe_max < t → categorizeValue c t = .severe)
        ∧ (categorizeValue c t).rank ≤ 5
        ∧ ∀ s, s ≤ t → (categorizeValue c s).rank ≤ (categorizeValue c t).rank) := by
  obtain ⟨h1, h2, h3, h4, h5, h6, h7, h8⟩ := (validate_eq c).mp hv
  refine ⟨rfl, ?_, ?_⟩
  · unfold categorizeValue
    split_ifs <;> simp_all
  · intro hts
    refine ⟨?_, ?_, ?_, ?_⟩
    · intro hsev
      unfold categorizeValue specFirstBucket
      split_ifs <;> first | rfl | omega
    · intro hsev
      unfold categorizeValue
      split_ifs <;> first | rfl | omega
    · unfold categorizeValue
      split_ifs <;> first | decide | omega
    · intro s hst
      unfold categorizeValue
      split_ifs <;> first | decide | omega

/-- Witness for the amended C7 theorem at the NVMe default taxonomy and
latency 5 ms. -/
theorem claim_C7_witness :
    categorizeValue (init_time_categories .nvme_ssd) 5 = .suspect
      ↔ (init_time_categories .nvme_ssd).suspect_threshold ≤ 5 :=
  (claim_C7_amended (init_time_categories .nvme_ssd) (by decide) 5 (by decide)).2.1

/-- C1: evaluation of the loop body on a failed read with the NVMe default
taxonomy (suspect threshold 8).  The sample's category is Damaged, but the
30000 ms sentinel is passed through `categorize_time`, so the Suspect
counter is incremented, the Damaged counter stays 0, and the sentinel also
enters the aggregates - contradicting both the claim and the code's own
log record for the sector. -/
theorem claim_C1_io_error_evaluation :
    (scanIterate 8 10 100 0 (init_time_categories .nvme_ssd)
        ⟨.ioError, true, fun _ => .ok 0⟩).category = .damaged
    ∧ (scanIterate 8 10 100 0 (init_time_categories .nvme_ssd)
        ⟨.ioError, true, fun _ => .ok 0⟩).state.counts .suspect = 1
    ∧ (scanIterate 8 10 100 0 (init_time_categories .nvme_ssd)
        ⟨.ioError, true, fun _ => .ok 0⟩).state.counts .damaged = 0
    ∧ (scanIterate 8 10 100 0 (init_time_categories .nvme_ssd)
        ⟨.ioError, true, fun _ => .ok 0⟩).state.total_time_ms = 30000
    ∧ (scanIterate 8 10 100 0 (init_time_categories .nvme_ssd)
        ⟨.ioError, true, fun _ => .ok 0⟩).state.max_time_ms = 30000 := by
  decide

/-- C5: evaluation of the suspect-threshold resolution.  Passing option 0
keeps the literal threshold 0 instead of substituting the recommendation
(the substitution fires at the sentinel 100, `DEFAULT_SUSPECT_THRESHOLD`),
although the recommendation for an NVMe device is 10; moreover a
non-rotational USB device is recommended 20, not the claimed 200 (which is
returned only when its rotational state is unknown). -/
theorem claim_C5_threshold_evaluation :
    resolve_suspect_threshold 0 ⟨.nvme_ssd, .nvme, 0, 0⟩ = 0
    ∧ get_recommended_suspect_threshold ⟨.nvme_ssd, .nvme, 0, 0⟩ = 10
    ∧ DEFAULT_SUSPECT_THRESHOLD = 100
    ∧ resolve_suspect_threshold 100 ⟨.nvme_ssd, .nvme, 0, 0⟩ = 10
    ∧ get_recommended_suspect_threshold ⟨.sata_ssd, .sata, 0, 0⟩ = 20
    ∧ get_recommended_suspect_threshold ⟨.hdd, .sata, 1, 10000⟩ = 60
    ∧ get_recommended_suspect_threshold ⟨.hdd, .sata, 1, 7200⟩ = 100
    ∧ get_recommended_suspect_threshold ⟨.hdd, .sata, 1, 0⟩ = 100
    ∧ get_recommended_suspect_threshold ⟨.hdd, .sata, 1, 5400⟩ = 150
    ∧ get_recommended_suspect_threshold ⟨.usb_storage, .usb, 0, 0⟩ = 20
    ∧ get_recommended_suspect_threshold ⟨.usb_storage, .usb, -1, 0⟩ = 200 := by
  decide

/-- C4 counterexample: with wait factor 50 and a 10 ms sample the loop
sleeps 500000 microseconds (500 ms), not the 5 ms (5000 microseconds) the
claim's `latency * factor / 100` formula gives. -/
theorem claim_C4_counterexample :
    (scanIterate 100 10 100 50 (init_time_categories .nvme_ssd)
        ⟨.ok 10, true, fun _ => .ok 1⟩).sleep_usec = 500000
    ∧ (500000 : Nat) ≠ 10 * 50 / 100 * 1000 := by
  decide

/-- C4 amended: for every iteration with positive wait factor whose final
read time (the retest average when a successful retest replaced it) is
positive, the engine sleeps read_time * wait_factor milliseconds - the
factor is a multiplier, not a percentage. -/
theorem claim_C4_amended (st : Nat) (retries interval : Int) (w : Nat)
    (c : TimeCategories) (o : SectorOutcome) (t : Nat)
    (ho : o.readResult = .ok t) (hw : 0 < w) :
    0 < (scanIterate st retries interval w c o).read_time_final →
    (scanIterate st retries interval w c o).sleep_usec
      = ((scanIterate st retries interval w c o).read_time_final.toNat * w) * 1000 := by
  intro hpos
  unfold scanIterate at *
  rw [ho] at hpos ⊢
  simp only at hpos ⊢
  rw [wait_sleep_usec, if_pos ⟨hw, hpos⟩]

/-- Witness for the amended C4 theorem: a 10 ms read below the suspect
threshold with wait factor 50 sleeps 10 * 50 * 1000 microseconds. -/
theorem claim_C4_witness :
    (scanIterate 100 10 100 50 (init_time_categories .nvme_ssd)
        ⟨.ok 10, true, fun _ => .ok 1⟩).sleep_usec
      = ((scanIterate 100 10 100 50 (init_time_categories .nvme_ssd)
        ⟨.ok 10, true, fun _ => .ok 1⟩).read_time_final.toNat * 50) * 1000 :=
  claim_C4_amended 100 10 100 50 (init_time_categories .nvme_ssd)
    ⟨.ok 10, true, fun _ => .ok 1⟩ 10 rfl (by decide) (by decide)

/-- When every attempted read succeeds, the retest loop records the first
`min (remaining attempts) (5 - recorded)` latencies in order. -/
theorem retestLoop_all_ok (lat : Nat → Nat) (l : List Nat) :
    ∀ acc : List Nat,
      retestLoop (fun i => .ok (lat i)) l acc
        = (acc ++ (l.take (5 - acc.length)).map lat, true) := by
  induction l with
  | nil => intro acc; simp [retestLoop]
  | cons i rest ih =>
      intro acc
      by_cases h : acc.length < 5
      · rw [retestLoop]
        rw [if_pos h]
        simp only []
        rw [ih (acc ++ [lat i])]
        rw [List.take_cons (by omega : 0 < 5 - acc.length)]
        simp [List.append_assoc]
        omega
      · rw [retestLoop, if_neg h]
        have h5 : 5 - acc.length = 0 := by omega
        simp [h5]

/-- C3 counterexample: with a configured maximum of 10 attempts (accepted
by `set_retest_config`) and no I/O error, the protocol records only 5
latencies, not 10; moreover `init_retest_config` defaults the maximum to
3, not 10, and `set_retest_config` accepts 1, outside the claimed 3..10
range. -/
theorem claim_C3_counterexample :
    (perform_sector_retest (set_retest_config init_retest_config 10 100)
        (fun _ => .ok 7)).retest_times.length = 5
    ∧ (set_retest_config init_retest_config 10 100).max_retests = 10
    ∧ init_retest_config.max_retests = 3
    ∧ (set_retest_config init_retest_config 1 100).max_retests = 1 := by
  decide

/-- C3 amended: absent an I/O error the protocol performs and records
exactly `min max_retests 5` timed reads (the recorded attempts are capped
at the 5-entry `retest_times` array); `init_retest_config` defaults the
maximum to 3, and `set_retest_config` accepts any maximum in 1..10 (the
scanner passes the CLI default of 10, so 5 attempts are recorded). -/
theorem claim_C3_amended (cfg : RetestConfig) (lat : Nat → Nat) :
    (perform_sector_retest cfg (fun i => .ok (lat i))).retest_times
      = (List.range (min cfg.max_retests 5)).map lat
    ∧ init_retest_config.max_retests = 3
    ∧ (∀ m i : Int, 0 < m → m ≤ 10 →
        (set_retest_config init_retest_config m i).max_retests = m.toNat) := by
  refine ⟨?_, rfl, ?_⟩
  · unfold perform_sector_retest
    rw [retestLoop_all_ok]
    simp [List.take_range, Nat.min_comm]
  · intro m i hm hm10
    unfold set_retest_config init_retest_config
    simp [hm, hm10]
    split_ifs <;> rfl

/-- Witness for the amended C3 theorem: with the default configuration and
constant 7 ms attempts the recorded latencies are three 7s, and a
requested maximum of 4 is accepted. -/
theorem claim_C3_witness :
    (perform_sector_retest init_retest_config (fun _ => .ok 7)).retest_times
      = (List.range (min init_retest_config.max_retests 5)).map (fun _ => 7)
    ∧ (set_retest_config init_retest_config 4 100).max_retests = (4 : Int).toNat :=
  ⟨(claim_C3_amended init_retest_config (fun _ => 7)).1,
   (claim_C3_amended init_retest_config (fun _ => 7)).2.2 4 100 (by decide) (by decide)⟩

/-- In a sorted list every element is bounded by the last one. -/
theorem sorted_le_getLast {l : List Nat} (hs : l.Sorted (· ≤ ·)) (hne : l ≠ []) :
    ∀ x ∈ l, x ≤ l.getLast hne := by
  induction l with
  | nil => simp at hne
  | cons a t ih =>
      intro x hx
      cases t with
      | nil =>
          simp at hx
          simp [hx, List.getLast]
      | cons b t' =>
          rw [List.getLast_cons (by simp : (b :: t') ≠ [])]
          rcases List.mem_cons.mp hx with rfl | hx'
          · exact (List.sorted_cons.mp hs).1 _ (List.getLast_mem _)
          · exact ih (List.sorted_cons.mp hs).2 (by simp) x hx'

/-- The sorted-middle average computed by `calculate_retest_average`
equals the integer mean after erasing one minimum and one maximum of the
recorded latencies. -/
theorem calculate_retest_average_eq {times : List Nat} (h3 : 3 ≤ times.length) :
    ∃ m M, m ∈ times ∧ M ∈ times.erase m
      ∧ (∀ x ∈ times, m ≤ x ∧ x ≤ M)
      ∧ calculate_retest_average times
          = ((times.erase m).erase M).sum / ((times.erase m).erase M).length := by
  have hperm : (times.insertionSort (· ≤ ·)).Perm times := List.perm_insertionSort _ _
  have hsort : (times.insertionSort (· ≤ ·)).Sorted (· ≤ ·) :=
    List.sorted_insertionSort _ _
  have hlen : (times.insertionSort (· ≤ ·)).length = times.length := hperm.length_eq
  obtain ⟨a, t, hs⟩ : ∃ a t, times.insertionSort (· ≤ ·) = a :: t := by
    cases h : times.insertionSort (· ≤ ·) with
    | nil =>
        rw [h] at hlen
        simp at hlen
        omega
    | cons a t => exact ⟨a, t, rfl⟩
  have htlen : t.length = times.length - 1 := by
    rw [hs] at hlen
    simp at hlen
    omega
  have ht : t ≠ [] := by
    intro h
    rw [h] at htlen
    simp at htlen
    omega
  have h1 : (times.erase a).Perm t := by
    have h0 := (hperm.erase a).symm
    rw [hs, List.erase_cons_head] at h0
    exact h0
  refine ⟨a, t.getLast ht, ?_, ?_, ?_, ?_⟩
  · exact hperm.subset (hs ▸ List.mem_cons_self a t)
  · exact h1.symm.subset (List.getLast_mem ht)
  · intro x hx
    have hxs : x ∈ a :: t := hs ▸ hperm.symm.subset hx
    constructor
    · rcases List.mem_cons.mp hxs with rfl | hx'
      · exact le_refl x
      · exact (List.sorted_cons.mp (hs ▸ hsort)).1 _ hx'
    · have := sorted_le_getLast (hs ▸ hsort) (by simp) x hxs
      rwa [List.getLast_cons ht] at this
  · have hMt : t.getLast ht ∈ t := List.getLast_mem ht
    have h2 : ((times.erase a).erase (t.getLast ht)).Perm (t.erase (t.getLast ht)) :=
      h1.erase _
    have h3' : (t.erase (t.getLast ht)).Perm t.dropLast := by
      have hx1 : t.Perm (t.getLast ht :: t.erase (t.getLast ht)) :=
        List.perm_cons_erase hMt
      have hx2 : t.Perm (t.getLast ht :: t.dropLast) := by
        conv_lhs => rw [← List.dropLast_append_getLast ht]
        exact List.perm_append_singleton _ _
      exact (hx1.symm.trans hx2).cons_inv
    have h4 : ((times.erase a).erase (t.getLast ht)).Perm t.dropLast := h2.trans h3'
    have hsum := h4.sum_eq
    have hlen4 := h4.length_eq
    unfold calculate_retest_average
    rw [if_neg (by omega)]
    rw [hs]
    simp only [List.drop_one, List.tail_cons]
    have hmidlen : t.dropLast.length = times.length - 2 := by
      simp [List.length_dropLast, htlen]
      omega
    rw [if_pos (by omega)]
    rw [hsum, hlen4]


/-- C8: for every error-free retest outcome with at least 3 recorded
attempts, the reported average is the integer mean of the attempt
latencies after removing exactly one minimum and one maximum; with 1 or 2
attempts it is the simple integer mean.  (A damaged outcome reports no
mean: the initialized 0 is kept.) -/
theorem claim_C8_trimmed_mean (cfg : RetestConfig) (f : Nat → ReadResult)
    (hnd : (perform_sector_retest cfg f).final_category ≠ .damaged) :
    (3 ≤ (perform_sector_retest cfg f).retest_times.length →
      ∃ m M, m ∈ (perform_sector_retest cfg f).retest_times
        ∧ M ∈ (perform_sector_retest cfg f).retest_times.erase m
        ∧ (∀ x ∈ (perform_sector_retest cfg f).retest_times, m ≤ x ∧ x ≤ M)
        ∧ (perform_sector_retest cfg f).average_time
            = (((perform_sector_retest cfg f).retest_times.erase m).erase M).sum
              / (((perform_sector_retest cfg f).retest_times.erase m).erase M).length)
    ∧ (1 ≤ (perform_sector_retest cfg f).retest_times.length →
        (perform_sector_retest cfg f).retest_times.length ≤ 2 →
        (perform_sector_retest cfg f).average_time
          = (perform_sector_retest cfg f).retest_times.sum
            / (perform_sector_retest cfg f).retest_times.length) := by
  unfold perform_sector_retest at hnd ⊢
  by_cases hok : (retestLoop f (List.range cfg.max_retests) []).2
  · simp only [hok, if_true] at hnd ⊢
    constructor
    · intro h3
      rw [if_pos h3]
      exact calculate_retest_average_eq h3
    · intro h1 h2
      rw [if_neg (by omega), if_pos (by omega)]
  · simp only [hok, if_false] at hnd
    simp at hnd

/-- Witness for the C8 theorem using the default 3-attempt configuration
with latencies 1, 2, 3. -/
theorem claim_C8_witness :
    (3 ≤ (perform_sector_retest init_retest_config
          (fun i => .ok (i + 1))).retest_times.length →
      ∃ m M, m ∈ (perform_sector_retest init_retest_config
            (fun i => .ok (i + 1))).retest_times
        ∧ M ∈ (perform_sector_retest init_retest_config
            (fun i => .ok (i + 1))).retest_times.erase m
        ∧ (∀ x ∈ (perform_sector_retest init_retest_config
            (fun i => .ok (i + 1))).retest_times, m ≤ x ∧ x ≤ M)
        ∧ (perform_sector_retest init_retest_config
            (fun i => .ok (i + 1))).average_time
            = (((perform_sector_retest init_retest_config
                (fun i => .ok (i + 1))).retest_times.erase m).erase M).sum
              / (((perform_sector_retest init_retest_config
                (fun i => .ok (i + 1))).retest_times.erase m).erase M).length)
    ∧ (1 ≤ (perform_sector_retest init_retest_config
          (fun i => .ok (i + 1))).retest_times.length →
        (perform_sector_retest init_retest_config
          (fun i => .ok (i + 1))).retest_times.length ≤ 2 →
        (perform_sector_retest init_retest_config
          (fun i => .ok (i + 1))).average_time
          = (perform_sector_retest init_retest_config
              (fun i => .ok (i + 1))).retest_times.sum
            / (perform_sector_retest init_retest_config
                (fun i => .ok (i + 1))).retest_times.length) :=
  claim_C8_trimmed_mean init_retest_config (fun i => .ok (i + 1)) (by decide)

/-- Classification depends only on the thresholds, which
`categorize_time` never changes: re-classifying against the updated
statistics struct gives the same category. -/
theorem categorizeValue_after (c : TimeCategories) (t u : Nat) :
    categorizeValue (categorize_time c t).2 u = categorizeValue c u := by
  unfold categorize_time
  dsimp only
  split_ifs <;> rfl

/-- C2 counterexample: NVMe default taxonomy (suspect 8, severe_max 200),
initial read 50 ms, all ten retest reads 1000 ms (trimmed mean 1000 ms,
above severe_max * 2 = 400).  `process_retest_result` would yield Damaged,
but the scan pipeline re-classifies the mean through `categorize_time` and
records the sector as Suspect, never touching the Damaged counter. -/
theorem claim_C2_counterexample :
    (process_retest_result (init_time_categories .nvme_ssd)
        (perform_sector_retest (set_retest_config init_retest_config 10 100)
          (fun _ => .ok 1000))).1 = .damaged
    ∧ (scanIterate 8 10 100 0 (init_time_categories .nvme_ssd)
        ⟨.ok 50, true, fun _ => .ok 1000⟩).category = .suspect
    ∧ (scanIterate 8 10 100 0 (init_time_categories .nvme_ssd)
        ⟨.ok 50, true, fun _ => .ok 1000⟩).state.counts .damaged = 0 := by
  decide

/-- C2 amended: `process_retest_result` does map a non-damaged retest with
trimmed mean at or above the suspect threshold to the six-bucket category
(at most severe_max * 2) or Damaged (above severe_max * 2); but the scan
pipeline does not invoke it - after a passed retest the loop's final
category is the ordinary classifier applied to the retest average, which
yields Suspect again whenever the average is at or above the taxonomy's
suspect threshold. -/
theorem claim_C2_amended (c : TimeCategories) (result : RetestResult)
    (hnd : result.final_category ≠ .damaged)
    (hs : c.suspect_threshold ≤ result.average_time) :
    ((result.average_time ≤ c.severe_max * 2 →
        (process_retest_result c result).1
          = categorize_time_without_stats c result.average_time)
      ∧ (c.severe_max * 2 < result.average_time →
        (process_retest_result c result).1 = .damaged))
    ∧ (∀ (st : Nat) (retries interval : Int) (w : Nat) (o : SectorOutcome) (t : Nat),
        o.readResult = .ok t → st ≤ t →
        0 ≤ handle_suspect_block retries interval o.retestSetupOk o.retestReads →
        (scanIterate st retries interval w c o).category
          = categorizeValue c
              (handle_suspect_block retries interval o.retestSetupOk o.retestReads).toNat) := by
  constructor
  · constructor
    · intro hle
      unfold process_retest_result
      rw [if_neg hnd]
      dsimp only
      rw [if_pos hs, if_neg (by omega)]
    · intro hgt
      unfold process_retest_result
      rw [if_neg hnd]
      dsimp only
      rw [if_pos hs, if_pos hgt]
  · intro st retries interval w o t ho hst hrt
    unfold scanIterate
    rw [ho]
    dsimp only
    unfold scanIterateOk
    rw [if_pos hst, if_pos hrt]
    exact categorizeValue_after c t _

/-- Witness for the amended C2 theorem: a suspect 50 ms read whose retest
averages 2 ms ends up classified by the plain classifier at 2 ms. -/
theorem claim_C2_witness :
    (scanIterate 8 10 100 0 (init_time_categories .nvme_ssd)
        ⟨.ok 50, true, fun _ => .ok 2⟩).category
      = categorizeValue (init_time_categories .nvme_ssd)
          (handle_suspect_block 10 100 true (fun _ => .ok 2)).toNat :=
  (claim_C2_amended (init_time_categories .nvme_ssd)
      (perform_sector_retest (set_retest_config init_retest_config 10 100)
        (fun _ => .ok 1000))
      (by decide) (by decide)).2
    8 10 100 0 ⟨.ok 50, true, fun _ => .ok 2⟩ 50 rfl (by decide) (by decide)

/-- Incrementing one counter raises the counter sum by one. -/
theorem countsSumF_bump (f : TimeCategoryType → Nat) (cat : TimeCategoryType) :
    countsSumF (bumpCount f cat) = countsSumF f + 1 := by
  cases cat <;> simp [countsSumF, bumpCount] <;> omega

theorem ct_total_reads (c : TimeCategories) (t : Nat) :
    (categorize_time c t).2.total_reads = c.total_reads + 1 := by
  unfold categorize_time
  dsimp only
  split_ifs <;> rfl

theorem ct_total_time (c : TimeCategories) (t : Nat) :
    (categorize_time c t).2.total_time_ms = c.total_time_ms + t := by
  unfold categorize_time
  dsimp only
  split_ifs <;> rfl

theorem ct_counts (c : TimeCategories) (t : Nat) :
    (categorize_time c t).2.counts = bumpCount c.counts (categorizeValue c t) := by
  unfold categorize_time
  dsimp only
  split_ifs <;> rfl

theorem ct_min (c : TimeCategories) (t : Nat) :
    (categorize_time c t).2.min_time_ms
      = if c.total_reads = 0 then t else min c.min_time_ms t := by
  unfold categorize_time
  dsimp only
  split_ifs with h1 h2 h3 <;> simp_all <;> omega

theorem ct_max (c : TimeCategories) (t : Nat) :
    (categorize_time c t).2.max_time_ms
      = if c.total_reads = 0 then t else max c.max_time_ms t := by
  unfold categorize_time
  dsimp only
  split_ifs with h1 h2 h3 <;> simp_all <;> omega

/-- Invariant maintained by the scan loop over the statistics fields. -/
def ScanInv (c : TimeCategories) : Prop :=
  countsSumF c.counts = c.total_reads
  ∧ (c.total_reads = 0 → c.total_time_ms = 0)
  ∧ (0 < c.total_reads →
      c.min_time_ms * c.total_reads ≤ c.total_time_ms
      ∧ c.total_time_ms ≤ c.max_time_ms * c.total_reads)

theorem ScanInv_categorize (c : TimeCategories) (t : Nat) (h : ScanInv c) :
    ScanInv (categorize_time c t).2 := by
  obtain ⟨hsum, hzero, hmm⟩ := h
  refine ⟨?_, ?_, ?_⟩
  · rw [ct_counts, countsSumF_bump, ct_total_reads, hsum]
  · rw [ct_total_reads]
    omega
  · intro _
    rw [ct_total_reads, ct_total_time, ct_min, ct_max]
    by_cases hr : c.total_reads = 0
    · simp [hr, hzero hr]
    · rw [if_neg hr, if_neg hr]
      obtain ⟨h1, h2⟩ := hmm (by omega)
      constructor
      · have hm : min c.min_time_ms t * c.total_reads ≤ c.total_time_ms :=
          (Nat.mul_le_mul_right _ (Nat.min_le_left _ _)).trans h1
        have := Nat.min_le_right c.min_time_ms t
        calc min c.min_time_ms t * (c.total_reads + 1)
            = min c.min_time_ms t * c.total_reads + min c.min_time_ms t :=
              Nat.mul_succ _ _
          _ ≤ c.total_time_ms + t := Nat.add_le_add hm this
      · have hm : c.total_time_ms ≤ max c.max_time_ms t * c.total_reads :=
          h2.trans (Nat.mul_le_mul_right _ (Nat.le_max_left _ _))
        have := Nat.le_max_right c.max_time_ms t
        calc c.total_time_ms + t
            ≤ max c.max_time_ms t * c.total_reads + max c.max_time_ms t :=
              Nat.add_le_add hm this
          _ = max c.max_time_ms t * (c.total_reads + 1) := (Nat.mul_succ _ _).symm

theorem scanIterateOk_state (st : Nat) (retries interval : Int)
    (c : TimeCategories) (o : SectorOutcome) (read_time : Nat) :
    (scanIterateOk st retries interval c o read_time).2.1
        = (categorize_time c read_time).2
    ∨ (scanIterateOk st retries interval c o read_time).2.1
        = (categorize_time (categorize_time c read_time).2
            (handle_suspect_block retries interval o.retestSetupOk
              o.retestReads).toNat).2 := by
  unfold scanIterateOk
  set rt := handle_suspect_block retries interval o.retestSetupOk o.retestReads
  by_cases h1 : st ≤ read_time <;> by_cases h2 : 0 ≤ rt <;> simp [h1, h2]

theorem scanIterate_inv (st : Nat) (retries interval : Int) (w : Nat)
    (c : TimeCategories) (o : SectorOutcome) (h : ScanInv c) :
    ScanInv (scanIterate st retries interval w c o).state
    ∧ (scanIterate st retries interval w c o).state.total_reads ≤ c.total_reads + 2 := by
  unfold scanIterate
  cases o.readResult with
  | ioError =>
      dsimp only
      exact ⟨ScanInv_categorize c 30000 h, by rw [ct_total_reads]; omega⟩
  | ok t =>
      dsimp only
      rcases scanIterateOk_state st retries interval c o t with heq | heq <;> rw [heq]
      · exact ⟨ScanInv_categorize c t h, by rw [ct_total_reads]; omega⟩
      · refine ⟨ScanInv_categorize _ _ (ScanInv_categorize c t h), ?_⟩
        simp only [ct_total_reads]
        omega

theorem scanLoop_inv (st : Nat) (retries interval : Int) (w : Nat)
    (os : List SectorOutcome) : ∀ c : TimeCategories, ScanInv c →
    ScanInv (scanLoop st retries interval w c os)
    ∧ (scanLoop st retries interval w c os).total_reads
        ≤ c.total_reads + 2 * os.length := by
  induction os with
  | nil =>
      intro c h
      exact ⟨h, by simp [scanLoop]⟩
  | cons o rest ih =>
      intro c h
      obtain ⟨h1, h2⟩ := scanIterate_inv st retries interval w c o h
      obtain ⟨h3, h4⟩ := ih _ h1
      refine ⟨by simpa [scanLoop] using h3, ?_⟩
      have : (scanLoop st retries interval w c (o :: rest))
          = scanLoop st retries interval w
              (scanIterate st retries interval w c o).state rest := rfl
      rw [this]
      simp only [List.length_cons]
      omega


/-- The freshly initialized taxonomy satisfies the scan invariant. -/
theorem ScanInv_init (dt : DeviceType) : ScanInv (init_time_categories dt) := by
  cases dt <;> exact ⟨rfl, fun _ => rfl, fun h => absurd h (by decide)⟩

/-- C6 counterexample: a single scheduled sample (planned count 1) whose
100 ms read triggers a passed retest is counted twice - once as the
initial Suspect classification and once for the retest average - so
total_reads = 2 exceeds the planned count. -/
theorem claim_C6_counterexample :
    (scanLoop 8 10 100 0 (init_time_categories .nvme_ssd)
        [⟨.ok 100, true, fun _ => .ok 2⟩]).total_reads = 2
    ∧ ([(⟨.ok 100, true, fun _ => .ok 2⟩ : SectorOutcome)]).length = 1 := by
  constructor
  · decide
  · rfl

/-- C6 amended: after any scan (completed or cancelled after a prefix of
the schedule) the eight per-category counters sum to total_reads,
total_reads is at most twice the number of processed samples (each sample
adds one classification plus one more when its retest passes), and the
mean latency lies between min_time_ms and max_time_ms. -/
theorem claim_C6_amended (dt : DeviceType) (st : Nat) (retries interval : Int)
    (w : Nat) (os : List SectorOutcome) :
    countsSumF (scanLoop st retries interval w (init_time_categories dt) os).counts
      = (scanLoop st retries interval w (init_time_categories dt) os).total_reads
    ∧ (scanLoop st retries interval w (init_time_categories dt) os).total_reads
        ≤ 2 * os.length
    ∧ (0 < (scanLoop st retries interval w (init_time_categories dt) os).total_reads →
        (scanLoop st retries interval w (init_time_categories dt) os).min_time_ms
          ≤ (scanLoop st retries interval w (init_time_categories dt) os).total_time_ms
            / (scanLoop st retries interval w (init_time_categories dt) os).total_reads
        ∧ (scanLoop st retries interval w (init_time_categories dt) os).total_time_ms
            / (scanLoop st retries interval w (init_time_categories dt) os).total_reads
          ≤ (scanLoop st retries interval w (init_time_categories dt) os).max_time_ms) := by
  obtain ⟨hinv, hle⟩ :=
    scanLoop_inv st retries interval w os (init_time_categories dt) (ScanInv_init dt)
  obtain ⟨hsum, hzero, hmm⟩ := hinv
  refine ⟨hsum, ?_, ?_⟩
  · have : (init_time_categories dt).total_reads = 0 := by cases dt <;> rfl
    omega
  · intro hpos
    obtain ⟨h1, h2⟩ := hmm hpos
    constructor
    · exact (Nat.le_div_iff_mul_le hpos).mpr h1
    · calc (scanLoop st retries interval w (init_time_categories dt) os).total_time_ms
            / (scanLoop st retries interval w (init_time_categories dt) os).total_reads
          ≤ (scanLoop st retries interval w (init_time_categories dt) os).max_time_ms
            * (scanLoop st retries interval w (init_time_categories dt) os).total_reads
            / (scanLoop st retries interval w (init_time_categories dt) os).total_reads :=
            Nat.div_le_div_right h2
        _ = (scanLoop st retries interval w (init_time_categories dt) os).max_time_ms :=
            Nat.mul_div_cancel _ hpos

/-- Witness for the amended C6 theorem: one clean 1 ms sample gives a
mean bounded below by the minimum. -/
theorem claim_C6_witness :
    (scanLoop 100 10 100 0 (init_time_categories .nvme_ssd)
        [⟨.ok 1, true, fun _ => .ok 1⟩]).min_time_ms
      ≤ (scanLoop 100 10 100 0 (init_time_categories .nvme_ssd)
          [⟨.ok 1, true, fun _ => .ok 1⟩]).total_time_ms
        / (scanLoop 100 10 100 0 (init_time_categories .nvme_ssd)
            [⟨.ok 1, true, fun _ => .ok 1⟩]).total_reads :=
  ((claim_C6_amended .nvme_ssd 100 10 100 0
      [⟨.ok 1, true, fun _ => .ok 1⟩]).2.2 (by decide)).1

/-- The code's planned count agrees with the claim's formula
min (end - start) (max 1 (floor ((end - start) * fraction))). -/
theorem planned_sample_count_eq (total : Nat) (frac : ℚ)
    (ht : 0 < total) (h0 : 0 < frac) (h1 : frac ≤ 1) :
    planned_sample_count total frac
      = min total (max 1 (Int.floor ((total : ℚ) * frac)).toNat) := by
  unfold planned_sample_count
  have hnn : (0:ℚ) ≤ (total : ℚ) * frac := by positivity
  have hfl0 : 0 ≤ Int.floor ((total : ℚ) * frac) := Int.floor_nonneg.mpr hnn
  by_cases hf : frac < 1
  · rw [if_pos hf]
    have hx : (total : ℚ) * frac < total := by
      have htq : (0:ℚ) < total := by exact_mod_cast ht
      calc (total : ℚ) * frac < (total : ℚ) * 1 := by
            exact mul_lt_mul_of_pos_left hf htq
        _ = total := mul_one _
    have hfl : Int.floor ((total : ℚ) * frac) < (total : Int) := by
      rw [Int.floor_lt]
      exact_mod_cast hx
    by_cases hz : (Int.floor ((total : ℚ) * frac)).toNat = 0
    · rw [if_pos hz, hz]
      omega
    · rw [if_neg hz]
      omega
  · rw [if_neg hf]
    have hfe : frac = 1 := le_antisymm h1 (not_lt.mp hf)
    subst hfe
    rw [mul_one, Int.floor_natCast]
    omega

/-- Bound on the uniform-stride index computation: the truncated product
stays at most total - 1. -/
theorem floor_stride_le (total count i : Nat) (hc : 0 < count)
    (hcle : count ≤ total) (hi : i < count) :
    (Int.floor ((i : ℚ) * ((total : ℚ) / (count : ℚ)))).toNat ≤ total - 1 := by
  have hcq : (0:ℚ) < (count : ℚ) := by exact_mod_cast hc
  have hstep0 : (0:ℚ) ≤ (total : ℚ) / (count : ℚ) := by positivity
  have hi' : (i : ℚ) ≤ (count : ℚ) - 1 := by
    have : (i : ℚ) ≤ ((count - 1 : Nat) : ℚ) := by
      exact_mod_cast Nat.le_sub_one_of_lt hi
    rwa [Nat.cast_sub hc, Nat.cast_one] at this
  have h2 : (i : ℚ) * ((total : ℚ) / (count : ℚ))
      ≤ ((count : ℚ) - 1) * ((total : ℚ) / (count : ℚ)) :=
    mul_le_mul_of_nonneg_right hi' hstep0
  have h3 : ((count : ℚ) - 1) * ((total : ℚ) / (count : ℚ))
      = (total : ℚ) - (total : ℚ) / (count : ℚ) := by
    field_simp
    ring
  have h4 : (1:ℚ) ≤ (total : ℚ) / (count : ℚ) := by
    rw [one_le_div hcq]
    exact_mod_cast hcle
  have hkey : (i : ℚ) * ((total : ℚ) / (count : ℚ)) ≤ (total : ℚ) - 1 := by
    linarith
  have hone : 1 ≤ total := by omega
  have hfl : Int.floor ((i : ℚ) * ((total : ℚ) / (count : ℚ)))
      ≤ ((total - 1 : Nat) : Int) := by
    have hcast : (((total - 1 : Nat) : Int) : ℚ) = (total : ℚ) - 1 := by
      push_cast [hone]
      ring
    have : (Int.floor ((i : ℚ) * ((total : ℚ) / (count : ℚ))) : ℚ)
        ≤ (((total - 1 : Nat) : Int) : ℚ) := by
      rw [hcast]
      exact le_trans (Int.floor_le _) hkey
    exact_mod_cast this
  omega

/-- Every sampled sector index lies in the half-open scan window, in all
three modes. -/
theorem sampleSector_mem (start_sector end_sector : Nat) (frac : ℚ) (random : Bool)
    (rnd : Nat → ℚ) (i : Nat) (hse : start_sector < end_sector)
    (h0 : 0 < frac) (h1 : frac ≤ 1)
    (hi : i < planned_sample_count (end_sector - start_sector) frac) :
    start_sector ≤ sampleSector start_sector end_sector frac random rnd i
    ∧ sampleSector start_sector end_sector frac random rnd i < end_sector := by
  have ht : 0 < end_sector - start_sector := by omega
  have hpe := planned_sample_count_eq (end_sector - start_sector) frac ht h0 h1
  have hcpos : 0 < planned_sample_count (end_sector - start_sector) frac := by
    rw [hpe]; omega
  have hcle : planned_sample_count (end_sector - start_sector) frac
      ≤ end_sector - start_sector := by
    rw [hpe]; omega
  unfold sampleSector
  by_cases hf : frac < 1
  · rw [if_pos hf]
    by_cases hr : random
    · rw [if_pos hr]
      dsimp only
      split_ifs <;> omega
    · rw [if_neg hr]
      have := floor_stride_le (end_sector - start_sector)
        (planned_sample_count (end_sector - start_sector) frac) i hcpos hcle hi
      omega
  · rw [if_neg hf]
    have hpc : planned_sample_count (end_sector - start_sector) frac
        = end_sector - start_sector := by
      unfold planned_sample_count
      rw [if_neg hf]
    omega


/-- C9: the schedule visits exactly the planned number of sectors
(max 1 of the truncated fraction, capped at the window size), every
visited index lies in the half-open window in all three modes, and the
dense mode (fraction 1) visits the window in strictly increasing order
with step 1. -/
theorem claim_C9_schedule (start_sector end_sector : Nat) (frac : ℚ)
    (random : Bool) (rnd : Nat → ℚ) (hse : start_sector < end_sector)
    (h0 : 0 < frac) (h1 : frac ≤ 1) :
    (sampleSectors start_sector end_sector frac random rnd).length
      = min (end_sector - start_sector)
          (max 1 (Int.floor (((end_sector - start_sector : Nat) : ℚ) * frac)).toNat)
    ∧ (∀ s ∈ sampleSectors start_sector end_sector frac random rnd,
        start_sector ≤ s ∧ s < end_sector)
    ∧ (frac = 1 →
        sampleSectors start_sector end_sector frac random rnd
          = List.range' start_sector (end_sector - start_sector)) := by
  have ht : 0 < end_sector - start_sector := by omega
  refine ⟨?_, ?_, ?_⟩
  · rw [sampleSectors, List.length_map, List.length_range]
    exact planned_sample_count_eq (end_sector - start_sector) frac ht h0 h1
  · intro s hs
    rw [sampleSectors, List.mem_map] at hs
    obtain ⟨i, hi, rfl⟩ := hs
    rw [List.mem_range] at hi
    exact sampleSector_mem start_sector end_sector frac random rnd i hse h0 h1 hi
  · intro hfe
    subst hfe
    have hnl : ¬ ((1:ℚ) < 1) := lt_irrefl 1
    have hpc : planned_sample_count (end_sector - start_sector) 1
        = end_sector - start_sector := by
      unfold planned_sample_count
      rw [if_neg hnl]
    rw [sampleSectors, hpc, List.range'_eq_map_range]
    refine List.map_congr_left ?_
    intro i hi
    unfold sampleSector
    rw [if_neg hnl]

/-- Witness for the C9 theorem: a 50 percent sample of the window
[0, 4) plans exactly the claimed number of sectors. -/
theorem claim_C9_witness :
    (sampleSectors 0 4 (1/2) false (fun _ => 0)).length
      = min (4 - 0) (max 1 (Int.floor (((4 - 0 : Nat) : ℚ) * (1/2))).toNat) :=
  (claim_C9_schedule 0 4 (1/2) false (fun _ => 0) (by norm_num) (by norm_num)
    (by norm_num)).1

/-- A percentage argument is accepted only in [0, 100] and maps to the
truncation of p / 100 * total_sectors. -/
theorem parse_percentage_eq (p : ℚ) (total v : Nat)
    (h : parse_percentage p total = some v) :
    0 ≤ p ∧ p ≤ 100 ∧ v = (Int.floor (p / 100 * (total : ℚ))).toNat := by
  unfold parse_percentage at h
  split_ifs at h with hc
  injection h with h2
  exact ⟨hc.1, hc.2, h2.symm⟩

/-- C10: whenever position parsing succeeds (it runs before any read),
the window is non-empty and in range - start < end, start < total,
end <= total - and any percentage argument was accepted only for
0 <= p <= 100 and resolved to floor(p / 100 * total). -/
theorem claim_C10_positions (a b : PosSpec) (total s e : Nat)
    (h : parse_positions a b total = some (s, e)) :
    0 < total ∧ s < e ∧ s < total ∧ e ≤ total
    ∧ (∀ p, a = .percent p → 0 ≤ p ∧ p ≤ 100
        ∧ s = (Int.floor (p / 100 * (total : ℚ))).toNat)
    ∧ (∀ p, b = .percent p → 0 ≤ p ∧ p ≤ 100
        ∧ e = (Int.floor (p / 100 * (total : ℚ))).toNat) := by
  unfold parse_positions at h
  by_cases h0 : total = 0
  · rw [if_pos h0] at h
    cases h
  · rw [if_neg h0] at h
    cases ha : resolvePos a total with
    | none =>
        rw [ha] at h
        cases h
    | some sv =>
      cases hb : resolvePos b total with
      | none =>
          rw [ha, hb] at h
          cases h
      | some ev =>
          rw [ha, hb] at h
          dsimp only at h
          split_ifs at h with h1 h2 h3
          cases h with
          | refl =>
            refine ⟨by omega, by omega, by omega, by omega, ?_, ?_⟩
            · intro p hp
              subst hp
              exact parse_percentage_eq p total s ha
            · intro p hp
              subst hp
              exact parse_percentage_eq p total e hb

/-- Witness for the C10 theorem at arguments 0 and 100 percent on a
100-sector device. -/
theorem claim_C10_witness :
    0 < 100 ∧ 0 < 100 ∧ 0 < 100 ∧ (100 : Nat) ≤ 100
    ∧ (∀ p, PosSpec.sector 0 = .percent p → 0 ≤ p ∧ p ≤ 100
        ∧ 0 = (Int.floor (p / 100 * ((100 : Nat) : ℚ))).toNat)
    ∧ (∀ p, PosSpec.percent 100 = .percent p → 0 ≤ p ∧ p ≤ 100
        ∧ 100 = (Int.floor (p / 100 * ((100 : Nat) : ℚ))).toNat) :=
  claim_C10_positions (.sector 0) (.percent 100) 100 0 100 (by
    norm_num [parse_positions, resolvePos, parse_percentage]
    rfl)

end GoodBlocks
